import Mathlib

/-!
Shallow embedding of the content-to-audio processing pipeline
(`src/backend`): the graph state (`services/graph/state.py`), the node
functions (`services/graph/nodes.py`), the router and linear graph wiring
(`services/graph/graph.py`), the TTS service (`services/tts_service.py`),
the processor (`processor.py`) and the polling worker (`worker.py`).

External collaborators (LLM call, ElevenLabs TTS, mutagen MP3 metadata,
Supabase storage upload / signed URL, the finalize DB call) are modelled
as oracles collected in an `Env` record; the request store is an explicit
list of rows plus a log of status writes, and the object store is an
explicit key-value list.  Every node is translated statement by statement
from the Python source.
-/

namespace Echo

/-- Bytes of an audio payload (Python `bytes`). -/
abbrev ByteSeq := List Nat

/-- `ProcessingState` from `services/graph/state.py`: the dict threaded
through the graph nodes.  `input_type` is kept as a raw string because the
router (`route_input`) operates on the dict value, not on the pydantic
`Literal` validator. -/
structure ProcessingState where
  clip_id : String
  input_type : String
  input_content : String
  target_duration : Nat
  context_instruction : Option String := none
  extracted_content : Option String := none
  page_title : Option String := none
  script : Option String := none
  audio_data : Option ByteSeq := none
  audio_filename : Option String := none
  audio_url : Option String := none
  actual_duration : Option ℚ := none
  error : Option String := none
deriving Repr, DecidableEq

/-- A row of the `audio_clips` table (the external request store). -/
structure ClipRow where
  id : String
  input_type : String
  input_content : String
  target_duration : Nat
  context_instruction : Option String := none
  status : String := "pending"
  generated_script : Option String := none
  audio_url : Option String := none
  actual_duration : Option Int := none
  page_title : Option String := none
  error_message : Option String := none
  created_at : Nat := 0
  started_processing_at : Option Nat := none
  completed_at : Option Nat := none
deriving Repr, DecidableEq

/-- The argument dict handed to `chain.invoke` in `generate_script_node`
(`nodes.py` lines 119-124). -/
structure GenArgs where
  target_duration : Nat
  target_word_count : Nat
  context_section : String
  content : Option String
deriving Repr, DecidableEq

/-- Oracles for the external collaborators used by the nodes.  Each field
models one external call: its result, or the exception it raises, for the
inputs of the current run. -/
structure Env where
  llm : GenArgs → Except String String
  tts : String → Except String ByteSeq
  mp3Duration : ByteSeq → Option ℚ
  uploadResult : String → ByteSeq → Except String Unit
  signResult : String → Except String String
  finalizeDbResult : Except String Unit
  now : Nat

/-- `process_note_node` (`nodes.py` lines 19-28): copies the raw note text
into `extracted_content`.  The Python body touches no other key of the
state dict and calls no external service (the embedding takes no `Env`). -/
def process_note_node (s : ProcessingState) : ProcessingState :=
  { s with extracted_content := some s.input_content }

/-- `scrape_url_node` (`nodes.py` lines 31-45): the placeholder URL path,
which writes fixed TODO strings for content and title. -/
def scrape_url_node (s : ProcessingState) : ProcessingState :=
  { s with extracted_content := some "TODO: Implement URL scraping",
           page_title := some "TODO: Extract title" }

/-- `route_input` (`graph.py` lines 22-30): `"process_note"` when
`input_type == "note"`, otherwise `"scrape_url"` — for every other value,
not just `"url"`. -/
def route_input (s : ProcessingState) : String :=
  if s.input_type = "note" then "process_note" else "scrape_url"

/-- The `context_section` string built in `generate_script_node`
(`nodes.py` lines 100-103): empty unless `context_instruction` is truthy. -/
def contextSection (s : ProcessingState) : String :=
  match s.context_instruction with
  | some c => if c = "" then "" else "\nSPECIAL FOCUS: " ++ c
  | none => ""

/-- The arguments `generate_script_node` passes to the generation chain,
including the computed `target_word_count = target_duration * 150`
(`nodes.py` lines 63-66 and 119-124). -/
def genArgs (s : ProcessingState) : GenArgs :=
  { target_duration := s.target_duration
    target_word_count := s.target_duration * 150
    context_section := contextSection s
    content := s.extracted_content }

/-- Python `str.strip()`: drop leading and trailing whitespace. -/
def pyStrip (s : String) : String :=
  ⟨((s.data.dropWhile Char.isWhitespace).reverse.dropWhile
      Char.isWhitespace).reverse⟩

/-- `generate_script_node` (`nodes.py` lines 48-133): invokes the
generation chain; on success stores the stripped script, on exception
stores a `Script generation failed: ...` message in `error`. -/
def generate_script_node (env : Env) (s : ProcessingState) : ProcessingState :=
  match env.llm (genArgs s) with
  | .ok script => { s with script := some (pyStrip script) }
  | .error e => { s with error := some ("Script generation failed: " ++ e) }

/-- Result dict of the TTS service call (`tts_service.py` lines 66-80). -/
structure TtsResult where
  audio_data : ByteSeq
  duration : ℚ
  error : Option String
deriving Repr, DecidableEq

/-- Helper for Python `str.split()`: cut a character list at runs of
whitespace, dropping empty fragments; `acc` holds the current word
reversed. -/
def wordsAux : List Char → List Char → List String
  | [], acc => if acc = [] then [] else [⟨acc.reverse⟩]
  | c :: cs, acc =>
    if c.isWhitespace then
      if acc = [] then wordsAux cs [] else ⟨acc.reverse⟩ :: wordsAux cs []
    else wordsAux cs (c :: acc)

/-- Python `len(script.split())`: whitespace-separated word count. -/
def wordCount (s : String) : Nat :=
  (wordsAux s.data []).length

/-- `text_to_speech` (`tts_service.py` lines 12-80): collects the audio
bytes; duration comes from the MP3 metadata when mutagen can read it,
otherwise from the `word_count / 150 * 60` estimate; a raising TTS call
yields an empty payload and a `TTS conversion failed: ...` error. -/
def text_to_speech (env : Env) (script : String) : TtsResult :=
  match env.tts script with
  | .error e =>
      { audio_data := [], duration := 0,
        error := some ("TTS conversion failed: " ++ e) }
  | .ok audio_data =>
      let duration : ℚ :=
        match env.mp3Duration audio_data with
        | some d => d
        | none => ((wordCount script : ℚ) / 150) * 60
      { audio_data := audio_data, duration := duration, error := none }

/-- `text_to_speech_node` (`nodes.py` lines 136-165): fails when no script
is present, otherwise copies the service result (or its error) into the
state. -/
def text_to_speech_node (env : Env) (s : ProcessingState) : ProcessingState :=
  let script := s.script.getD ""
  if script = "" then
    { s with error := some "No script available for TTS conversion" }
  else
    let result := text_to_speech env script
    match result.error with
    | some e => { s with error := some e }
    | none =>
        { s with audio_data := some result.audio_data,
                 actual_duration := some result.duration }

/-- The `audio-files` object store: a list of `(key, bytes)` objects. -/
abbrev Storage := List (String × ByteSeq)

/-- An upload with `upsert: true` (`nodes.py` lines 194-201): any existing
object under the key is replaced, never duplicated. -/
def storagePut (store : Storage) (k : String) (v : ByteSeq) : Storage :=
  (store.filter (fun e => e.1 != k)) ++ [(k, v)]

/-- The objects a store holds under key `k`. -/
def storageEntries (store : Storage) (k : String) : Storage :=
  store.filter (fun e => e.1 == k)

/-- `save_audio_node` (`nodes.py` lines 168-227): checks for audio bytes
(Python falsy check: missing or empty), uploads them under
`f"{clip_id}.mp3"` with upsert, requests a signed URL, and records
filename and URL; exceptions from upload or signing become a
`Failed to save audio: ...` error (an exception raised by signing still
leaves the uploaded object in the store). -/
def save_audio_node (env : Env) (s : ProcessingState) (store : Storage) :
    ProcessingState × Storage :=
  match s.audio_data with
  | none => ({ s with error := some "No audio data available to save" }, store)
  | some audio_data =>
    if audio_data = [] then
      ({ s with error := some "No audio data available to save" }, store)
    else
      let filename := s.clip_id ++ ".mp3"
      match env.uploadResult filename audio_data with
      | .error e =>
          ({ s with error := some ("Failed to save audio: " ++ e) }, store)
      | .ok _ =>
        let store' := storagePut store filename audio_data
        match env.signResult filename with
        | .error e =>
            ({ s with error := some ("Failed to save audio: " ++ e) }, store')
        | .ok url =>
            ({ s with audio_filename := some filename,
                      audio_url := some url }, store')

/-- The external request store plus a log of the status writes performed
on it, in order: each entry is `(clip id, status written)`. -/
structure Db where
  rows : List ClipRow
  log : List (String × String) := []
deriving Repr, DecidableEq

/-- `supabase.table("audio_clips").select("*").eq("id", id).single()`. -/
def dbFetch (db : Db) (id : String) : Option ClipRow :=
  db.rows.find? (fun r => r.id == id)

/-- An `update(...).eq("id", id)` call that sets `status` (among other
fields, given by `f`): it rewrites the matching row and is recorded in the
write log; a missing row is a no-op write. -/
def dbWriteStatus (db : Db) (id status : String) (f : ClipRow → ClipRow) : Db :=
  if db.rows.any (fun r => r.id == id) then
    { rows := db.rows.map (fun r => if r.id == id then f r else r),
      log := db.log ++ [(id, status)] }
  else db

/-- Python `int()` on a nonnegative rational duration: truncation toward
zero. -/
def intTrunc (q : ℚ) : Int :=
  if 0 ≤ q then ⌊q⌋ else ⌈q⌉

/-- `update_clip_status_node` (`nodes.py` lines 230-274): unconditionally
builds an update dict with `status="completed"`, the script, the audio
URL, the truncated duration (`None` when falsy), `completed_at`, plus
`page_title` when truthy, and writes it to the row; a raising DB call
becomes a `Failed to update clip status: ...` error and no write. -/
def update_clip_status_node (env : Env) (s : ProcessingState) (db : Db) :
    ProcessingState × Db :=
  match env.finalizeDbResult with
  | .error e =>
      ({ s with error := some ("Failed to update clip status: " ++ e) }, db)
  | .ok _ =>
    let db' := dbWriteStatus db s.clip_id "completed" (fun r =>
      let r' := { r with
        status := "completed",
        generated_script := s.script,
        audio_url := s.audio_url,
        actual_duration :=
          match s.actual_duration with
          | some d => if d ≠ 0 then some (intTrunc d) else none
          | none => none,
        completed_at := some env.now }
      match s.page_title with
      | some t => if t ≠ "" then { r' with page_title := some t } else r'
      | none => r')
    (s, db')

/-- The compiled graph (`graph.py` lines 33-73): conditional entry through
`route_input`, then the fixed linear chain
`generate_script → text_to_speech → save_audio → update_status`.  Every
node in the chain is invoked on whatever state the previous node
returned — the wiring has no error-conditional edges. -/
def run_graph (env : Env) (s : ProcessingState) (db : Db) (store : Storage) :
    ProcessingState × Db × Storage :=
  let s1 := if route_input s = "process_note" then process_note_node s
            else scrape_url_node s
  let s2 := generate_script_node env s1
  let s3 := text_to_speech_node env s2
  let (s4, store') := save_audio_node env s3 store
  let (s5, db') := update_clip_status_node env s4 db
  (s5, db', store')

/-- Return dict of `process_clip`. -/
structure ProcResult where
  success : Bool
  error : Option String := none
deriving Repr, DecidableEq

/-- The initial `ProcessingState` built in `process_clip`
(`processor.py` lines 44-50) from the fetched row. -/
def initialState (clip : ClipRow) : ProcessingState :=
  { clip_id := clip.id
    input_type := clip.input_type
    input_content := clip.input_content
    target_duration := clip.target_duration
    context_instruction := clip.context_instruction }

/-- `process_clip` (`processor.py` lines 16-73): fetches the row, marks it
`processing` with `started_processing_at` — an unconditional update with
no check that the row is still `pending` — runs the graph, and on a final
`error` writes `status="failed"` with the message (touching no other
field); otherwise the graph's own `update_status` write stands. -/
def process_clip (env : Env) (db : Db) (store : Storage) (clip_id : String) :
    Db × Storage × ProcResult :=
  match dbFetch db clip_id with
  | none => (db, store, { success := false, error := some "Clip not found" })
  | some clip =>
    let db1 := dbWriteStatus db clip_id "processing" (fun r =>
      { r with status := "processing", started_processing_at := some env.now })
    let (finalS, db2, store') := run_graph env (initialState clip) db1 store
    match finalS.error with
    | some e =>
        let db3 := dbWriteStatus db2 clip_id "failed" (fun r =>
          { r with status := "failed", error_message := some e })
        (db3, store', { success := false, error := some e })
    | none => (db2, store', { success := true })

/-- Comparison by creation time, the `order("created_at", desc=False)` of
the worker's poll query. -/
def createdLe (a b : ClipRow) : Prop :=
  a.created_at ≤ b.created_at

instance : DecidableRel createdLe := fun a b =>
  inferInstanceAs (Decidable (a.created_at ≤ b.created_at))

instance : IsTotal ClipRow createdLe :=
  ⟨fun a b => Nat.le_total a.created_at b.created_at⟩

instance : IsTrans ClipRow createdLe :=
  ⟨fun _ _ _ hab hbc => Nat.le_trans hab hbc⟩

/-- The rows selected by the worker's poll (`worker.py` lines 36-41):
status `pending`, ordered by `created_at` ascending, limited to 5. -/
def pollRows (rows : List ClipRow) : List ClipRow :=
  (((rows.filter (fun r => r.status == "pending")).insertionSort
      createdLe).take 5)

/-- The ids the worker iterates over in one polling cycle
(the `select("id")` projection of `pollRows`). -/
def pollPending (rows : List ClipRow) : List String :=
  (pollRows rows).map (fun r => r.id)

/-- One dispatcher's processing of a list of claimed ids, sequentially
(`worker.py` lines 46-49: `for clip in result.data: process_clip(...)`). -/
def processBatch (env : Env) (dbst : Db × Storage) (ids : List String) :
    Db × Storage :=
  ids.foldl (fun acc id =>
    let (d, st, _) := process_clip env acc.1 acc.2 id
    (d, st)) dbst

/-- A concurrent schedule of two dispatcher instances: both poll the store
while it is in the same state (before either has marked anything
`processing`), then dispatcher A processes its batch, then dispatcher B
processes its batch.  Each step is exactly the code's poll
(`worker.py` lines 36-41) and `process_clip`. -/
def two_dispatcher_race (env : Env) (db : Db) (store : Storage) :
    Db × Storage :=
  let idsA := pollPending db.rows
  let idsB := pollPending db.rows
  let afterA := processBatch env (db, store) idsA
  processBatch env afterA idsB

/-- Number of terminal (`completed` or `failed`) status writes the store
received for a given request. -/
def terminalWrites (db : Db) (id : String) : Nat :=
  (db.log.filter (fun e =>
    e.1 == id && (e.2 == "completed" || e.2 == "failed"))).length

/-!
Concrete fixtures: a single pending note request and environments in which
the external calls all succeed, the generation call raises, or the
synthesis call raises.
-/

/-- A pending note request, duration 5 minutes, created at time 1. -/
def row1 : ClipRow :=
  { id := "c1", input_type := "note", input_content := "Some note text",
    target_duration := 5, created_at := 1 }

/-- A store holding only `row1`, with an empty write log. -/
def db0 : Db := { rows := [row1] }

/-- Environment in which every external call succeeds deterministically. -/
def okEnv : Env :=
  { llm := fun _ => .ok "hello world script"
    tts := fun _ => .ok [1, 2, 3]
    mp3Duration := fun _ => some 12
    uploadResult := fun _ _ => .ok ()
    signResult := fun f => .ok ("https://signed/" ++ f)
    finalizeDbResult := .ok ()
    now := 100 }

/-- Same as `okEnv` except the generation call raises `boom`. -/
def genFailEnv : Env := { okEnv with llm := fun _ => .error "boom" }

/-- Same as `okEnv` except the synthesis call raises `boom`. -/
def ttsFailEnv : Env := { okEnv with tts := fun _ => .error "boom" }

/-- Same as `okEnv` except the MP3 metadata of the payload is unreadable,
forcing the word-count duration estimate. -/
def noMetaEnv : Env :=
  { okEnv with tts := fun _ => .ok [7], mp3Duration := fun _ => none }

/-- A state whose input kind is neither `note` nor `url`. -/
def bogusState : ProcessingState :=
  { clip_id := "cx", input_type := "bogus", input_content := "x",
    target_duration := 2 }

/-!
Theorems settling the claims.
-/

/-- Claim C1: once the error field is set, no later stage writes any other
field and the terminal `failed` write carries the first message.  The code
violates this: after the generation call fails with
`Script generation failed: boom`, the TTS and save stages overwrite the
error field, `update_clip_status_node` still performs its `completed`
write, and the terminal `failed` write carries the last overwrite
(`No audio data available to save`), not the original message. -/
theorem error_message_not_preserved_after_generation_failure :
    (generate_script_node genFailEnv (process_note_node (initialState row1))).error
      = some "Script generation failed: boom"
  ∧ (process_clip genFailEnv db0 [] "c1").2.2.error
      = some "No audio data available to save"
  ∧ (process_clip genFailEnv db0 [] "c1").1.log
      = [("c1", "processing"), ("c1", "completed"), ("c1", "failed")]
  ∧ ((dbFetch (process_clip genFailEnv db0 [] "c1").1 "c1").map
        (fun r => r.error_message))
      = some (some "No audio data available to save") :=
  ⟨rfl, rfl, rfl, rfl⟩

/-- Claim C2: a request is claimed via an atomic conditional update and
executed by at most one of two concurrent dispatchers, giving at most one
terminal write.  The code violates this: `process_clip` marks the row
`processing` unconditionally (no `pending` precondition), so when both
dispatchers poll before either claims, both execute the request and the
store receives two terminal `completed` writes. -/
theorem race_double_terminal_write :
    (two_dispatcher_race okEnv db0 []).1.log
      = [("c1", "processing"), ("c1", "completed"),
         ("c1", "processing"), ("c1", "completed")]
  ∧ terminalWrites (two_dispatcher_race okEnv db0 []).1 "c1" = 2 :=
  ⟨rfl, rfl⟩

/-- Claim C3: after a synthesis failure, Store-Artifact and
Finalize-Status are never invoked.  The code violates this: the graph
wiring is unconditionally linear, so after `text_to_speech_node` records
`TTS conversion failed: boom`, `save_audio_node` runs (overwriting the
error, though it stores nothing) and `update_clip_status_node` runs and
performs its `completed` write before the runner's `failed` write. -/
theorem finalize_write_after_synthesis_failure :
    (text_to_speech_node ttsFailEnv
        (generate_script_node ttsFailEnv
          (process_note_node (initialState row1)))).error
      = some "TTS conversion failed: boom"
  ∧ (process_clip ttsFailEnv db0 [] "c1").1.log
      = [("c1", "processing"), ("c1", "completed"), ("c1", "failed")]
  ∧ (process_clip ttsFailEnv db0 [] "c1").2.1 = ([] : Storage) :=
  ⟨rfl, rfl, rfl⟩

/-- Claim C4: after a run, `completed_at` is set iff status is
`completed`.  The code violates this: on a failed run the unconditional
`update_clip_status_node` write stamps `completed_at`, and the subsequent
`failed` write only touches `status` and `error_message`, leaving a row
with `status = "failed"` and `completed_at` set. -/
theorem failed_run_has_completed_at :
    ((dbFetch (process_clip genFailEnv db0 [] "c1").1 "c1").map
        (fun r => (r.status, r.completed_at)))
      = some ("failed", some 100) :=
  rfl

/-- Claim C5 counterexample: handed the unrecognized input kind `bogus`,
`route_input` does not fail loudly — it silently returns the URL entry
stage `scrape_url`. -/
theorem route_input_silently_defaults_unknown_kind :
    bogusState.input_type ≠ "note" ∧ bogusState.input_type ≠ "url"
  ∧ route_input bogusState = "scrape_url" :=
  ⟨by decide, by decide, rfl⟩

/-- Claim C5 (amended): the router maps `note` to the note entry stage and
every other input kind — `url` and unrecognized kinds alike — to the URL
entry stage; unrecognized kinds are silently routed, not rejected. -/
theorem route_input_note_else_scrape (s : ProcessingState) :
    (s.input_type = "note" → route_input s = "process_note")
  ∧ (s.input_type ≠ "note" → route_input s = "scrape_url") := by
  constructor
  · intro h; simp [route_input, h]
  · intro h; simp [route_input, h]

/-- Witness for the amended C5 at concrete inputs: a `note` state routes
to `process_note` and a `url` state routes to `scrape_url`. -/
theorem route_input_note_else_scrape_witness :
    route_input (initialState row1) = "process_note"
  ∧ route_input bogusState = "scrape_url" :=
  ⟨(route_input_note_else_scrape (initialState row1)).1 rfl,
   (route_input_note_else_scrape bogusState).2 (by decide)⟩

/-- Claim C6: for a `note` request, `process_note_node` copies the raw
input verbatim into `extracted_content` and changes no other field; the
embedding takes no `Env`, reflecting that the node makes no external
call. -/
theorem process_note_copies_content (s : ProcessingState)
    (_h : s.input_type = "note") :
    (process_note_node s).extracted_content = some s.input_content
  ∧ (process_note_node s).clip_id = s.clip_id
  ∧ (process_note_node s).input_type = s.input_type
  ∧ (process_note_node s).input_content = s.input_content
  ∧ (process_note_node s).target_duration = s.target_duration
  ∧ (process_note_node s).context_instruction = s.context_instruction
  ∧ (process_note_node s).page_title = s.page_title
  ∧ (process_note_node s).script = s.script
  ∧ (process_note_node s).audio_data = s.audio_data
  ∧ (process_note_node s).audio_filename = s.audio_filename
  ∧ (process_note_node s).audio_url = s.audio_url
  ∧ (process_note_node s).actual_duration = s.actual_duration
  ∧ (process_note_node s).error = s.error :=
  ⟨rfl, rfl, rfl, rfl, rfl, rfl, rfl, rfl, rfl, rfl, rfl, rfl, rfl⟩

/-- Witness for C6 on the concrete note request `row1`. -/
theorem process_note_copies_content_witness :
    (process_note_node (initialState row1)).extracted_content
      = some "Some note text" :=
  (process_note_copies_content (initialState row1) rfl).1

/-- Claim C7: the generation stage's target word count is
`target_duration * 150`; for a 5-minute target it is 750. -/
theorem target_word_count_formula (s : ProcessingState) :
    (genArgs s).target_word_count = s.target_duration * 150
  ∧ (s.target_duration = 5 → (genArgs s).target_word_count = 750) := by
  refine ⟨rfl, fun h => ?_⟩
  simp [genArgs, h]

/-- Witness for C7 on `row1`, whose target duration is 5 minutes. -/
theorem target_word_count_formula_witness :
    (genArgs (initialState row1)).target_word_count = 750 :=
  (target_word_count_formula (initialState row1)).2 rfl

/-- Claim C8: a polling cycle selects only `pending` rows of the store,
sorted oldest-created-first, and hands at most 5 ids to the processing
loop. -/
theorem poll_pending_filtered_sorted_bounded (rows : List ClipRow) :
    (pollPending rows).length ≤ 5
  ∧ (∀ r ∈ pollRows rows, r ∈ rows ∧ r.status = "pending")
  ∧ List.Sorted createdLe (pollRows rows)
  ∧ pollPending rows = (pollRows rows).map (fun r => r.id) := by
  refine ⟨?_, ?_, ?_, rfl⟩
  · simp [pollPending, pollRows]
  · intro r hr
    have h1 : r ∈ (rows.filter
        (fun r => r.status == "pending")).insertionSort createdLe :=
      List.mem_of_mem_take hr
    rw [List.mem_insertionSort] at h1
    have h2 := List.mem_filter.mp h1
    exact ⟨h2.1, by simpa using h2.2⟩
  · exact List.Pairwise.sublist (List.take_sublist 5 _)
      (List.sorted_insertionSort createdLe
        (rows.filter (fun r => r.status == "pending")))

/-- Witness for C8 on the concrete store `db0`. -/
theorem poll_pending_filtered_sorted_bounded_witness :
    (pollPending db0.rows).length ≤ 5 :=
  (poll_pending_filtered_sorted_bounded db0.rows).1

/-- Claim C9: when the synthesis call succeeds, the measured duration is
the payload's embedded MP3 metadata when readable, and otherwise the
`word_count / 150 * 60` estimate; such a call reports no error. -/
theorem tts_duration_metadata_or_estimate (env : Env) (script : String)
    (bytes : ByteSeq) (h : env.tts script = .ok bytes) :
    (text_to_speech env script).error = none
  ∧ (text_to_speech env script).duration =
      (match env.mp3Duration bytes with
       | some d => d
       | none => ((wordCount script : ℚ) / 150) * 60) := by
  unfold text_to_speech
  rw [h]
  exact ⟨rfl, rfl⟩

/-- Witness for C9: in `noMetaEnv` the metadata is unreadable, so the
three-word script gets the estimated duration `3 / 150 * 60`. -/
theorem tts_duration_metadata_or_estimate_witness :
    (text_to_speech noMetaEnv "one two three").error = none
  ∧ (text_to_speech noMetaEnv "one two three").duration
      = ((wordCount "one two three" : ℚ) / 150) * 60 := by
  have h := tts_duration_metadata_or_estimate noMetaEnv "one two three" [7] rfl
  exact ⟨h.1, h.2⟩

/-- After an upsert upload, the store holds exactly one object under the
uploaded key. -/
theorem storageEntries_put (store : Storage) (k : String) (v : ByteSeq) :
    storageEntries (storagePut store k v) k = [(k, v)] := by
  unfold storageEntries storagePut
  rw [List.filter_append, List.filter_filter]
  have h1 : ∀ e : String × ByteSeq, ((e.1 == k) && (e.1 != k)) = false := by
    intro e
    by_cases hk : e.1 = k <;> simp [hk]
  simp [h1]

/-- A successful upload in `save_audio_node` replaces the store's object
under the key `clip_id ++ ".mp3"` (whatever the signing call does). -/
theorem save_audio_store_eq (env : Env) (s : ProcessingState)
    (store : Storage) (a : ByteSeq)
    (h : s.audio_data = some a) (hn : a ≠ [])
    (hup : env.uploadResult (s.clip_id ++ ".mp3") a = .ok ()) :
    (save_audio_node env s store).2
      = storagePut store (s.clip_id ++ ".mp3") a := by
  unfold save_audio_node
  rw [h]
  simp only [hn, if_neg, hup]
  cases hs : env.signResult (s.clip_id ++ ".mp3") <;> simp [hs]

/-- Claim C10: the storage key is the request identity with a fixed
`.mp3` extension, and the upsert upload means reprocessing the same
request leaves exactly one stored object under that key, holding the
later payload. -/
theorem save_audio_upsert_same_key (env : Env) (s₁ s₂ : ProcessingState)
    (store : Storage) (a₁ a₂ : ByteSeq)
    (hid : s₂.clip_id = s₁.clip_id)
    (h₁ : s₁.audio_data = some a₁) (h₁n : a₁ ≠ [])
    (h₂ : s₂.audio_data = some a₂) (h₂n : a₂ ≠ [])
    (hup : ∀ k b, env.uploadResult k b = .ok ()) :
    (save_audio_node env s₁ store).2
      = storagePut store (s₁.clip_id ++ ".mp3") a₁
  ∧ storageEntries ((save_audio_node env s₂
        ((save_audio_node env s₁ store).2)).2) (s₁.clip_id ++ ".mp3")
      = [(s₁.clip_id ++ ".mp3", a₂)] := by
  have e₁ := save_audio_store_eq env s₁ store a₁ h₁ h₁n (hup _ _)
  have e₂ := save_audio_store_eq env s₂ ((save_audio_node env s₁ store).2)
    a₂ h₂ h₂n (hup _ _)
  refine ⟨e₁, ?_⟩
  rw [e₂, hid, e₁]
  exact storageEntries_put _ _ _

/-- State of a first processing run of clip `c1` that produced audio
`[1, 2, 3]`. -/
def audioState₁ : ProcessingState :=
  { clip_id := "c1", input_type := "note", input_content := "n",
    target_duration := 5, audio_data := some [1, 2, 3] }

/-- State of a reprocessing run of the same clip with new audio `[9]`. -/
def audioState₂ : ProcessingState :=
  { audioState₁ with audio_data := some [9] }

/-- Witness for C10: uploading for `c1` twice leaves exactly one object
under `c1.mp3`, holding the second payload. -/
theorem save_audio_upsert_same_key_witness :
    storageEntries ((save_audio_node okEnv audioState₂
        ((save_audio_node okEnv audioState₁ []).2)).2) "c1.mp3"
      = [("c1.mp3", [9])] :=
  (save_audio_upsert_same_key okEnv audioState₁ audioState₂ [] [1, 2, 3] [9]
    rfl rfl (by decide) rfl (by decide) (fun _ _ => rfl)).2

end Echo
